import Mathlib

/-!
Shallow embedding of the Zahndemo front-end controllers, verified against
the repository specification: the cost calculator (src/js/cost-calculator.js),
the testimonials slider (TestimonialsSlider), the practice-tour slider
(PracticeSlider), the FAQ accordion (FAQAccordion), the cases-gallery filter
(CasesGallery) and the blog filter (BlogSystem.applyFilter).
-/

namespace Zahndemo

/-! ## Cost calculator (src/js/cost-calculator.js) -/

/-- JavaScript `Math.round`: round half toward positive infinity,
i.e. `Math.round(x) = ⌊x + 0.5⌋`. -/
def jsRound (q : ℚ) : Int := ⌊q + 1/2⌋

/-- One innermost row of `this.pricingData`: an object with keys
`simple`, `medium`, `complex`; property access on any other key yields
`undefined` (modelled as `none`). -/
def mkRow (simple medium complex : Int) : String → Option Int := fun c =>
  if c = "simple" then some simple
  else if c = "medium" then some medium
  else if c = "complex" then some complex
  else none

/-- `this.pricingData.invisalign`: keys `short`, `medium`, `long`. -/
def invisalignPrices : String → Option (String → Option Int) := fun d =>
  if d = "short" then some (mkRow 3500 4500 5500)
  else if d = "medium" then some (mkRow 4000 5000 6000)
  else if d = "long" then some (mkRow 4500 5500 6500)
  else none

/-- `this.pricingData['feste-spange']`. -/
def festeSpangePrices : String → Option (String → Option Int) := fun d =>
  if d = "short" then some (mkRow 2800 3500 4200)
  else if d = "medium" then some (mkRow 3200 4000 4800)
  else if d = "long" then some (mkRow 3600 4500 5500)
  else none

/-- `this.pricingData.lingual`. -/
def lingualPrices : String → Option (String → Option Int) := fun d =>
  if d = "short" then some (mkRow 6500 7500 8500)
  else if d = "medium" then some (mkRow 7000 8000 9000)
  else if d = "long" then some (mkRow 7500 8500 9500)
  else none

/-- `this.pricingData.fruehbehandlung`. -/
def fruehbehandlungPrices : String → Option (String → Option Int) := fun d =>
  if d = "short" then some (mkRow 1800 2200 2600)
  else if d = "medium" then some (mkRow 2200 2600 3000)
  else if d = "long" then some (mkRow 2600 3000 3500)
  else none

/-- Top level of `this.pricingData`: keys `invisalign`, `feste-spange`,
`lingual`, `fruehbehandlung`. -/
def pricingData : String → Option (String → Option (String → Option Int)) :=
  fun t =>
  if t = "invisalign" then some invisalignPrices
  else if t = "feste-spange" then some festeSpangePrices
  else if t = "lingual" then some lingualPrices
  else if t = "fruehbehandlung" then some fruehbehandlungPrices
  else none

/-- The optional-chained lookup
`this.pricingData[treatmentType]?.[duration]?.[complexity]`. -/
def pricingLookup (t d c : String) : Option Int :=
  (pricingData t).bind fun table => (table d).bind fun row => row c

/-- `getTreatmentName`. -/
def getTreatmentName (t : String) : String :=
  if t = "invisalign" then "Invisalign"
  else if t = "feste-spange" then "Feste Spange"
  else if t = "lingual" then "Lingualtechnik"
  else if t = "fruehbehandlung" then "Frühbehandlung"
  else t

/-- `getDurationName`. -/
def getDurationName (d : String) : String :=
  if d = "short" then "Kurz (6-12 Monate)"
  else if d = "medium" then "Mittel (12-18 Monate)"
  else if d = "long" then "Lang (18-24 Monate)"
  else d

/-- `getComplexityName`. -/
def getComplexityName (c : String) : String :=
  if c = "simple" then "Einfach"
  else if c = "medium" then "Mittel"
  else if c = "complex" then "Komplex"
  else c

/-- The record returned by `calculateDetailedCost` (the `breakdown`
sub-object repeats the four price fields and is not duplicated here). -/
structure CostResult where
  treatmentType : String
  duration : String
  complexity : String
  basePrice : Int
  consultationFee : Int
  diagnosticFee : Int
  retentionFee : Int
  subtotal : Int
  monthlyPayment : Int
  insuranceCoverage : Int
  patientShare : Int
deriving Repr, DecidableEq

/-- `calculateDetailedCost(basePrice, treatmentType, duration, complexity)`. -/
def calculateDetailedCost (basePrice : Int) (treatmentType duration complexity : String) :
    CostResult :=
  let consultationFee : Int := 150
  let diagnosticFee : Int := 200
  let retentionFee : Int := 300
  let subtotal : Int := basePrice + consultationFee + diagnosticFee + retentionFee
  let monthlyPayment : Int := jsRound ((subtotal : ℚ) / 24)
  let insuranceCoverage : Int := jsRound ((subtotal : ℚ) * (1/2))
  let patientShare : Int := subtotal - insuranceCoverage
  { treatmentType := getTreatmentName treatmentType
    duration := getDurationName duration
    complexity := getComplexityName complexity
    basePrice := basePrice
    consultationFee := consultationFee
    diagnosticFee := diagnosticFee
    retentionFee := retentionFee
    subtotal := subtotal
    monthlyPayment := monthlyPayment
    insuranceCoverage := insuranceCoverage
    patientShare := patientShare }

/-- `calculateCustomCost(treatmentType, duration, complexity)`:
`null` when the lookup misses or the stored price is falsy (`!basePrice`). -/
def calculateCustomCost (t d c : String) : Option CostResult :=
  match pricingLookup t d c with
  | none => none
  | some basePrice =>
      if basePrice = 0 then none else some (calculateDetailedCost basePrice t d c)

/-- The key set of the first level of the pricing table. -/
def treatmentKeys : List String := ["invisalign", "feste-spange", "lingual", "fruehbehandlung"]

/-- The key set of the second level of the pricing table. -/
def durationKeys : List String := ["short", "medium", "long"]

/-- The key set of the third level of the pricing table. -/
def complexityKeys : List String := ["simple", "medium", "complex"]

/-! ## Testimonials slider (class TestimonialsSlider)

The DOM state a slide carries that the claims speak about: the `active`
CSS class and the `aria-hidden` attribute. -/

structure Slide where
  active : Bool
  ariaHidden : Bool
deriving Repr, DecidableEq

/-- The observable state of a `TestimonialsSlider` instance together with
the browser's interval-timer table (`activeTimers` lists the live handles
created by `setInterval`, paired with their tick delay; `nextTimerId` is
the next fresh handle). `slideCount` is the cached `this.slideCount`
field, updated only where the source updates it. -/
structure TestimonialsSlider where
  currentSlide : Int
  slideCount : Int
  isAnimating : Bool
  slides : List Slide
  autoPlayInterval : Option Nat
  autoPlayDelay : Int
  activeTimers : List (Nat × Int)
  nextTimerId : Nat
deriving Repr, DecidableEq

namespace TestimonialsSlider

/-- `setupAccessibility`: sets `aria-hidden` to `'false'` on slide 0 and
`'true'` on every other slide (it does not touch the `active` class,
`currentSlide` or the counters). -/
def setupAccessibility (s : TestimonialsSlider) : TestimonialsSlider :=
  { s with slides := s.slides.mapIdx fun i sl => { sl with ariaHidden := i != 0 } }

/-- `updateSlider`: re-entrancy guard on `isAnimating`, then one render
pass marking exactly the slide at `currentSlide` active/visible, and sets
the `isAnimating` flag (cleared later by the 300 ms timeout, modelled by
`transitionEnd`). -/
def updateSlider (s : TestimonialsSlider) : TestimonialsSlider :=
  if s.isAnimating then s
  else
    { s with
      isAnimating := true
      slides := s.slides.mapIdx fun i _ =>
        if (i : Int) = s.currentSlide then ({ active := true, ariaHidden := false } : Slide)
        else ({ active := false, ariaHidden := true } : Slide) }

/-- The 300 ms `setTimeout` callback at the end of `updateSlider`,
clearing the animation flag. -/
def transitionEnd (s : TestimonialsSlider) : TestimonialsSlider :=
  { s with isAnimating := false }

/-- `nextSlide`: no-op while animating, otherwise
`currentSlide = (currentSlide + 1) % slideCount` (JavaScript `%` is
truncated remainder, `Int.tmod`) followed by `updateSlider`. -/
def nextSlide (s : TestimonialsSlider) : TestimonialsSlider :=
  if s.isAnimating then s
  else updateSlider { s with currentSlide := (s.currentSlide + 1).tmod s.slideCount }

/-- `prevSlide`. -/
def prevSlide (s : TestimonialsSlider) : TestimonialsSlider :=
  if s.isAnimating then s
  else updateSlider { s with currentSlide :=
    if s.currentSlide = 0 then s.slideCount - 1 else s.currentSlide - 1 }

/-- `goToSlide(index)`: rejected while animating, out of range, or equal
to the current index; otherwise jumps and renders. -/
def goToSlide (s : TestimonialsSlider) (index : Int) : TestimonialsSlider :=
  if s.isAnimating ∨ index < 0 ∨ s.slideCount ≤ index ∨ index = s.currentSlide then s
  else updateSlider { s with currentSlide := index }

/-- `startAutoPlay`: returns early when a handle is already stored,
otherwise creates one interval timer with the current delay and stores
its handle. -/
def startAutoPlay (s : TestimonialsSlider) : TestimonialsSlider :=
  if s.autoPlayInterval.isSome then s
  else
    { s with
      autoPlayInterval := some s.nextTimerId
      activeTimers := s.activeTimers ++ [(s.nextTimerId, s.autoPlayDelay)]
      nextTimerId := s.nextTimerId + 1 }

/-- `pauseAutoPlay`: when a handle is stored, `clearInterval` it (the
timer leaves the live table) and null the field; otherwise do nothing. -/
def pauseAutoPlay (s : TestimonialsSlider) : TestimonialsSlider :=
  match s.autoPlayInterval with
  | some h =>
      { s with
        autoPlayInterval := none
        activeTimers := s.activeTimers.filter fun t => t.1 != h }
  | none => s

/-- Public `play()`. -/
def play (s : TestimonialsSlider) : TestimonialsSlider := startAutoPlay s

/-- Public `pause()`. -/
def pause (s : TestimonialsSlider) : TestimonialsSlider := pauseAutoPlay s

/-- `setAutoPlayDelay(delay)`: stores the delay; when a timer is active,
pauses and restarts it so the new delay takes effect immediately. -/
def setAutoPlayDelay (s : TestimonialsSlider) (delay : Int) : TestimonialsSlider :=
  let s' := { s with autoPlayDelay := delay }
  if s'.autoPlayInterval.isSome then startAutoPlay (pauseAutoPlay s') else s'

/-- `getCurrentSlide()`. -/
def getCurrentSlide (s : TestimonialsSlider) : Int := s.currentSlide

/-- `getSlideCount()`. -/
def getSlideCount (s : TestimonialsSlider) : Int := s.slideCount

/-- `addTestimonial(data)`: appends a fresh slide element created with
`aria-hidden='true'` and no `active` class, re-queries the slide list,
recomputes `slideCount`, and ends with `setupAccessibility` (the dot
bookkeeping only mirrors the slide list and is not modelled). -/
def addTestimonial (s : TestimonialsSlider) : TestimonialsSlider :=
  let s₁ := { s with slides :=
    s.slides ++ [({ active := false, ariaHidden := true } : Slide)] }
  let s₂ := { s₁ with slideCount := (s₁.slides.length : Int) }
  setupAccessibility s₂

/-- `removeTestimonial(index)`: range-checked; removes the slide at
`index`, recomputes `slideCount` from the re-queried list, pins
`currentSlide` to the new last index when it fell off the end, then
`setupAccessibility` and `updateSlider`. -/
def removeTestimonial (s : TestimonialsSlider) (index : Int) : TestimonialsSlider :=
  if index < 0 ∨ s.slideCount ≤ index then s
  else
    let s₁ := { s with slides := s.slides.eraseIdx index.toNat }
    let s₂ := { s₁ with slideCount := (s₁.slides.length : Int) }
    let s₃ :=
      if s₂.slideCount ≤ s₂.currentSlide then { s₂ with currentSlide := s₂.slideCount - 1 }
      else s₂
    updateSlider (setupAccessibility s₃)

end TestimonialsSlider

/-! ## Practice tour slider (class PracticeSlider)

One-based slide numbering (`currentSlide` starts at 1, valid numbers are
`1 .. totalSlides`). Its slide collection is fixed, so only the
navigation and timer state is carried. -/

structure PracticeSlider where
  currentSlide : Int
  totalSlides : Int
  isAnimating : Bool
  autoPlayInterval : Option Nat
  autoPlayDelay : Int
  activeTimers : List (Nat × Int)
  nextTimerId : Nat
deriving Repr, DecidableEq

namespace PracticeSlider

/-- `updateSlider`: re-entrancy guard, then one render pass; the flag is
set and later cleared by the 300 ms timeout (`transitionEnd`). The DOM
class/attribute toggling touches no field of this state beyond
`isAnimating`. -/
def updateSlider (s : PracticeSlider) : PracticeSlider :=
  if s.isAnimating then s else { s with isAnimating := true }

/-- The 300 ms `setTimeout` callback clearing the animation flag. -/
def transitionEnd (s : PracticeSlider) : PracticeSlider :=
  { s with isAnimating := false }

/-- `nextSlide`: increments below `totalSlides`, wraps to 1 at the end
(note: no `isAnimating` guard before the index update in this class). -/
def nextSlide (s : PracticeSlider) : PracticeSlider :=
  updateSlider
    { s with currentSlide :=
        if s.currentSlide < s.totalSlides then s.currentSlide + 1 else 1 }

/-- `prevSlide`. -/
def prevSlide (s : PracticeSlider) : PracticeSlider :=
  updateSlider
    { s with currentSlide :=
        if 1 < s.currentSlide then s.currentSlide - 1 else s.totalSlides }

/-- `goToSlide(slideNumber)`: only the range `1 <= n <= totalSlides` is
checked; an in-range jump is performed even while a transition is in
progress and even when `n` equals the current slide. -/
def goToSlide (s : PracticeSlider) (n : Int) : PracticeSlider :=
  if 1 ≤ n ∧ n ≤ s.totalSlides then updateSlider { s with currentSlide := n }
  else s

/-- `startAutoPlay`: clears the previous interval when one is stored
(without nulling the field), then always creates a fresh timer and
stores its handle. -/
def startAutoPlay (s : PracticeSlider) : PracticeSlider :=
  let s₁ :=
    match s.autoPlayInterval with
    | some h => { s with activeTimers := s.activeTimers.filter fun t => t.1 != h }
    | none => s
  { s₁ with
    autoPlayInterval := some s₁.nextTimerId
    activeTimers := s₁.activeTimers ++ [(s₁.nextTimerId, s₁.autoPlayDelay)]
    nextTimerId := s₁.nextTimerId + 1 }

/-- `pauseAutoPlay`: identical to the testimonials version. -/
def pauseAutoPlay (s : PracticeSlider) : PracticeSlider :=
  match s.autoPlayInterval with
  | some h =>
      { s with
        autoPlayInterval := none
        activeTimers := s.activeTimers.filter fun t => t.1 != h }
  | none => s

/-- Public `play()`. -/
def play (s : PracticeSlider) : PracticeSlider := startAutoPlay s

/-- Public `pause()`. -/
def pause (s : PracticeSlider) : PracticeSlider := pauseAutoPlay s

/-- `setAutoPlayDelay(delay)`: stores the delay; when a timer is active,
restarts it (startAutoPlay itself clears the old interval). -/
def setAutoPlayDelay (s : PracticeSlider) (delay : Int) : PracticeSlider :=
  let s' := { s with autoPlayDelay := delay }
  if s'.autoPlayInterval.isSome then startAutoPlay s' else s'

end PracticeSlider

/-! ## FAQ accordion (class FAQAccordion)

The state the claim speaks about is the `aria-expanded` attribute of each
question, one boolean per FAQ item. -/

namespace FAQAccordion

/-- `closeAllFAQs`: sets `aria-expanded='false'` on every item. -/
def closeAllFAQs (items : List Bool) : List Bool :=
  items.map fun _ => false

/-- `openFAQ` on the item at position `i`: sets `aria-expanded='true'`. -/
def openFAQ (items : List Bool) (i : Nat) : List Bool :=
  items.set i true

/-- `toggleFAQ` on the item at position `i`: reads whether the item is
expanded, closes all items, then opens the target only if it was not
already expanded. -/
def toggleFAQ (items : List Bool) (i : Nat) : List Bool :=
  let isExpanded := items.getD i false
  let closed := closeAllFAQs items
  if ¬isExpanded then openFAQ closed i else closed

/-- Number of items with `aria-expanded='true'`. -/
def countExpanded (items : List Bool) : Nat :=
  items.count true

end FAQAccordion

/-! ## Cases gallery filter (class CasesGallery) and blog filter
(BlogSystem.applyFilter) -/

/-- A gallery case: the claims only involve its `data-category` tag. -/
structure CaseItem where
  category : String
deriving Repr, DecidableEq

/-- `getVisibleCases` / the visibility predicate of `filterCases`: an
item shows iff the filter is `'all'` or its category tag equals the
filter string. -/
def getVisibleCases (currentFilter : String) (cases : List CaseItem) : List CaseItem :=
  cases.filter fun c => currentFilter == "all" || c.category == currentFilter

/-- A blog article: the claims only involve its `category`. -/
structure Article where
  category : String
deriving Repr, DecidableEq

/-- `BlogSystem.applyFilter`: the resulting `filteredArticles` list. -/
def applyFilter (filter : String) (articles : List Article) : List Article :=
  if filter = "all" then articles
  else articles.filter fun a => a.category == filter

/-! ## Event sequences and timer bookkeeping -/

namespace TestimonialsSlider

/-- One settled `next()` call: the navigation, then the 300 ms timeout
that ends the visual transition before the next input arrives. -/
def nextStep (s : TestimonialsSlider) : TestimonialsSlider :=
  transitionEnd (nextSlide s)

/-- Number of live interval timers owned by the slider. -/
def timerCount (s : TestimonialsSlider) : Nat := s.activeTimers.length

/-- The autoplay-timer invariant of the data model: the stored handle is
the one live timer, and absence of a handle means no live timer. -/
def TimerInv (s : TestimonialsSlider) : Prop :=
  match s.autoPlayInterval with
  | none => s.activeTimers = []
  | some h => ∃ d, s.activeTimers = [(h, d)]

end TestimonialsSlider

namespace PracticeSlider

/-- Number of live interval timers owned by the slider. -/
def timerCount (s : PracticeSlider) : Nat := s.activeTimers.length

/-- Autoplay-timer invariant, as for the testimonials slider. -/
def TimerInv (s : PracticeSlider) : Prop :=
  match s.autoPlayInterval with
  | none => s.activeTimers = []
  | some h => ∃ d, s.activeTimers = [(h, d)]

end PracticeSlider

/-- A call to one of the two public autoplay controls. -/
inductive AutoOp where
  | play
  | pause
deriving Repr, DecidableEq

/-- Run a sequence of `play()`/`pause()` calls on the testimonials
slider. -/
def runAutoT (s : TestimonialsSlider) (ops : List AutoOp) : TestimonialsSlider :=
  ops.foldl (fun s op => match op with
    | AutoOp.play => s.play
    | AutoOp.pause => s.pause) s

/-- Run a sequence of `play()`/`pause()` calls on the practice slider. -/
def runAutoP (s : PracticeSlider) (ops : List AutoOp) : PracticeSlider :=
  ops.foldl (fun s op => match op with
    | AutoOp.play => s.play
    | AutoOp.pause => s.pause) s

/-! ## Concrete states used as witnesses and counterexamples -/

/-- A freshly initialised three-slide testimonials slider positioned on
slide 1 (autoplay off, no transition running). -/
def ts3 : TestimonialsSlider :=
  { currentSlide := 1
    slideCount := 3
    isAnimating := false
    slides := [{ active := false, ariaHidden := true },
               { active := true, ariaHidden := false },
               { active := false, ariaHidden := true }]
    autoPlayInterval := none
    autoPlayDelay := 5000
    activeTimers := []
    nextTimerId := 0 }

/-- A one-slide testimonials slider showing its only slide. -/
def oneSlide : TestimonialsSlider :=
  { currentSlide := 0
    slideCount := 1
    isAnimating := false
    slides := [{ active := true, ariaHidden := false }]
    autoPlayInterval := none
    autoPlayDelay := 5000
    activeTimers := []
    nextTimerId := 0 }

/-- A testimonials slider before any slide exists. -/
def emptySlider : TestimonialsSlider :=
  { currentSlide := 0
    slideCount := 0
    isAnimating := false
    slides := []
    autoPlayInterval := none
    autoPlayDelay := 5000
    activeTimers := []
    nextTimerId := 0 }

/-- The practice slider mid-transition on slide 2 of 5. -/
def tourMid : PracticeSlider :=
  { currentSlide := 2
    totalSlides := 5
    isAnimating := true
    autoPlayInterval := none
    autoPlayDelay := 5000
    activeTimers := []
    nextTimerId := 0 }

/-- The three-slide testimonials slider with autoplay running (timer
handle 7 live with the default 5000 ms delay). -/
def tsActive : TestimonialsSlider :=
  { currentSlide := 1
    slideCount := 3
    isAnimating := false
    slides := [{ active := false, ariaHidden := true },
               { active := true, ariaHidden := false },
               { active := false, ariaHidden := true }]
    autoPlayInterval := some 7
    autoPlayDelay := 5000
    activeTimers := [(7, 5000)]
    nextTimerId := 8 }

/-- The practice slider with autoplay running (timer handle 4 live). -/
def tourActive : PracticeSlider :=
  { currentSlide := 2
    totalSlides := 5
    isAnimating := false
    autoPlayInterval := some 4
    autoPlayDelay := 5000
    activeTimers := [(4, 5000)]
    nextTimerId := 5 }

/-- The practice slider at rest on slide 2 of 5. -/
def tourIdle : PracticeSlider :=
  { currentSlide := 2
    totalSlides := 5
    isAnimating := false
    autoPlayInterval := none
    autoPlayDelay := 5000
    activeTimers := []
    nextTimerId := 0 }

/-! ## Theorems -/

/-- Claim C4: `calculateCustomCost('invisalign','short','simple')` returns a
result with base price 3500, subtotal `3500 + 150 + 200 + 300 = 4150`,
monthly payment `round(4150/24) = 173`, insurance coverage
`round(4150*0.5) = 2075` and patient share `2075`. -/
theorem claim_C4_cost_breakdown :
    (calculateCustomCost "invisalign" "short" "simple").map
      (fun r => (r.basePrice, r.subtotal, r.monthlyPayment, r.insuranceCoverage,
        r.patientShare))
      = some (3500, 4150, 173, 2075, 2075) := by
  norm_num [calculateCustomCost, pricingLookup, pricingData, invisalignPrices, mkRow,
    calculateDetailedCost, jsRound]

/-- Claim C8: the filter `'all'` makes the visible subset the full original
collection (in particular the same count), and any other filter string makes
the visible subset exactly the items whose category tag is string-equal to
the filter — both for the cases gallery and for the blog article filter. -/
theorem claim_C8_filter_visible_subset :
    (∀ cases : List CaseItem, getVisibleCases "all" cases = cases)
    ∧ (∀ (f : String) (cases : List CaseItem), f ≠ "all" →
        ∀ c, c ∈ getVisibleCases f cases ↔ c ∈ cases ∧ c.category = f)
    ∧ (∀ articles : List Article, applyFilter "all" articles = articles)
    ∧ (∀ (f : String) (articles : List Article), f ≠ "all" →
        ∀ a, a ∈ applyFilter f articles ↔ a ∈ articles ∧ a.category = f) := by
  refine ⟨fun cases => ?_, fun f cases hf c => ?_, fun articles => ?_,
    fun f articles hf a => ?_⟩
  · simp [getVisibleCases]
  · simp [getVisibleCases, List.mem_filter, hf]
  · simp [applyFilter]
  · simp [applyFilter, List.mem_filter, hf]

/-- Claim C8 witness at a concrete gallery and filter. -/
theorem claim_C8_witness :
    ("invisalign" : String) ≠ "all"
    ∧ (⟨"invisalign"⟩ ∈ getVisibleCases "invisalign" [⟨"invisalign"⟩, ⟨"lingual"⟩]
        ↔ (⟨"invisalign"⟩ : CaseItem) ∈ [(⟨"invisalign"⟩ : CaseItem), ⟨"lingual"⟩]
          ∧ CaseItem.category ⟨"invisalign"⟩ = "invisalign") :=
  ⟨by decide,
    claim_C8_filter_visible_subset.2.1 "invisalign" [⟨"invisalign"⟩, ⟨"lingual"⟩]
      (by decide) ⟨"invisalign"⟩⟩

namespace FAQAccordion

lemma closeAllFAQs_eq_replicate (items : List Bool) :
    closeAllFAQs items = List.replicate items.length false := by
  simp [closeAllFAQs, List.map_const']

lemma count_true_replicate_set (n i : Nat) :
    ((List.replicate n false).set i true).count true = if i < n then 1 else 0 := by
  induction n generalizing i with
  | zero => simp
  | succ n ih =>
      cases i with
      | zero => simp [List.replicate_succ, List.count_cons, List.count_replicate]
      | succ i =>
          simp only [List.replicate_succ, List.set, List.count_cons, ih,
            Nat.succ_lt_succ_iff]
          split <;> simp

lemma countExpanded_toggleFAQ_le_one (items : List Bool) (i : Nat) :
    countExpanded (toggleFAQ items i) ≤ 1 := by
  simp only [toggleFAQ, countExpanded, openFAQ, closeAllFAQs_eq_replicate]
  split_ifs <;>
    first
    | simp [List.count_replicate]
    | (rw [count_true_replicate_set]; split <;> simp)

end FAQAccordion

open FAQAccordion in
/-- Claim C7: every FAQ toggle closes all items first and opens the target
only if it was not already expanded; toggling a collapsed item leaves exactly
one item with `aria-expanded='true'` (in particular opening B while A is
open), and after any non-empty sequence of toggles at most one item is
expanded. -/
theorem claim_C7_faq_single_open :
    (∀ (items : List Bool) (i : Nat), i < items.length → items.getD i false = false →
        countExpanded (toggleFAQ items i) = 1)
    ∧ (∀ (items : List Bool) (i : Nat), countExpanded (toggleFAQ items i) ≤ 1)
    ∧ (∀ (items : List Bool) (ops : List Nat), ops ≠ [] →
        countExpanded (ops.foldl toggleFAQ items) ≤ 1) := by
  refine ⟨fun items i hi hcol => ?_, fun items i => countExpanded_toggleFAQ_le_one items i,
    fun items ops => ?_⟩
  · simp only [toggleFAQ, countExpanded, openFAQ, closeAllFAQs_eq_replicate, hcol]
    simp [count_true_replicate_set, hi]
  · induction ops generalizing items with
    | nil => intro h; exact absurd rfl h
    | cons op rest ih =>
        intro _
        rcases rest with _ | ⟨op₂, rest₂⟩
        · exact countExpanded_toggleFAQ_le_one items op
        · exact ih (toggleFAQ items op) (by simp)

open FAQAccordion in
/-- Claim C7 witness: with item 0 open among three items, toggling item 1
leaves exactly one item expanded. -/
theorem claim_C7_witness :
    1 < ([true, false, false] : List Bool).length
    ∧ ([true, false, false] : List Bool).getD 1 false = false
    ∧ countExpanded (toggleFAQ [true, false, false] 1) = 1 :=
  ⟨by decide, by decide,
    claim_C7_faq_single_open.1 [true, false, false] 1 (by decide) (by decide)⟩

namespace TestimonialsSlider

lemma updateSlider_currentSlide (s : TestimonialsSlider) :
    (updateSlider s).currentSlide = s.currentSlide := by
  unfold updateSlider; split <;> rfl

lemma updateSlider_slideCount (s : TestimonialsSlider) :
    (updateSlider s).slideCount = s.slideCount := by
  unfold updateSlider; split <;> rfl

lemma nextStep_spec (s : TestimonialsSlider) (hA : s.isAnimating = false) :
    (nextStep s).currentSlide = (s.currentSlide + 1).tmod s.slideCount
    ∧ (nextStep s).slideCount = s.slideCount
    ∧ (nextStep s).isAnimating = false := by
  unfold nextStep nextSlide transitionEnd
  rw [if_neg (by simp [hA])]
  exact ⟨updateSlider_currentSlide _, updateSlider_slideCount _, rfl⟩

lemma nextStep_iterate (s : TestimonialsSlider) (hN : 1 ≤ s.slideCount)
    (h0 : 0 ≤ s.currentSlide) (hlt : s.currentSlide < s.slideCount)
    (hA : s.isAnimating = false) (k : Nat) :
    (nextStep^[k] s).currentSlide = (s.currentSlide + k) % s.slideCount
    ∧ (nextStep^[k] s).slideCount = s.slideCount
    ∧ (nextStep^[k] s).isAnimating = false := by
  induction k with
  | zero =>
      refine ⟨?_, rfl, hA⟩
      simp [Int.emod_eq_of_lt h0 hlt]
  | succ k ih =>
      obtain ⟨ih₁, ih₂, ih₃⟩ := ih
      rw [Function.iterate_succ_apply']
      obtain ⟨h₁, h₂, h₃⟩ := nextStep_spec (nextStep^[k] s) ih₃
      refine ⟨?_, by rw [h₂, ih₂], h₃⟩
      rw [h₁, ih₁, ih₂]
      have hnn : 0 ≤ (s.currentSlide + (k : Int)) % s.slideCount :=
        Int.emod_nonneg _ (by omega)
      rw [Int.tmod_eq_emod (by omega) (by omega), Int.emod_add_emod]
      push_cast
      ring_nf

end TestimonialsSlider

open TestimonialsSlider in
/-- Claim C1: on a slide collection with `slideCount = N ≥ 1` and a valid
current index, `N` settled `next()` calls (each followed by the
transition-end timeout) return `currentSlide` to its starting value, and
each single `next()` call from a non-animating state advances the index by
one modulo `N`. -/
theorem claim_C1_next_wraparound (s : TestimonialsSlider) (hN : 1 ≤ s.slideCount)
    (h0 : 0 ≤ s.currentSlide) (hlt : s.currentSlide < s.slideCount)
    (hA : s.isAnimating = false) :
    (nextStep^[s.slideCount.toNat] s).currentSlide = s.currentSlide
    ∧ (nextSlide s).currentSlide = (s.currentSlide + 1).tmod s.slideCount := by
  constructor
  · obtain ⟨h₁, -, -⟩ := nextStep_iterate s hN h0 hlt hA s.slideCount.toNat
    rw [h₁, Int.toNat_of_nonneg (by omega)]
    have hwrap : (s.currentSlide + s.slideCount) % s.slideCount
        = s.currentSlide % s.slideCount := by
      have := Int.add_mul_emod_self_left s.currentSlide s.slideCount 1
      rwa [Int.mul_one] at this
    rw [hwrap, Int.emod_eq_of_lt h0 hlt]
  · unfold nextSlide
    rw [if_neg (by simp [hA])]
    exact updateSlider_currentSlide _

/-- Claim C1 witness: a three-slide slider starting at index 1 returns to
index 1 after three settled `next()` calls, and a single call moves it to
index 2. -/
theorem claim_C1_witness :
    1 ≤ ts3.slideCount ∧ 0 ≤ ts3.currentSlide ∧ ts3.currentSlide < ts3.slideCount
    ∧ ts3.isAnimating = false
    ∧ ((TestimonialsSlider.nextStep^[ts3.slideCount.toNat] ts3).currentSlide
        = ts3.currentSlide
      ∧ (TestimonialsSlider.nextSlide ts3).currentSlide
        = (ts3.currentSlide + 1).tmod ts3.slideCount) :=
  ⟨by decide, by decide, by decide, by decide,
    claim_C1_next_wraparound ts3 (by decide) (by decide) (by decide) (by decide)⟩

namespace TestimonialsSlider

lemma setupAccessibility_currentSlide (s : TestimonialsSlider) :
    (setupAccessibility s).currentSlide = s.currentSlide := rfl

lemma setupAccessibility_slideCount (s : TestimonialsSlider) :
    (setupAccessibility s).slideCount = s.slideCount := rfl

end TestimonialsSlider

open TestimonialsSlider in
/-- Claim C2 counterexample: on a one-slide collection (`N = 1`, current
index `0`, the last index), `removeTestimonial(currentIndex)` leaves
`currentSlide = -1`: the index does go negative (and `N - 2 = -1`), so the
claim's `never becomes negative` and `0 <= currentIndex < slideCount` parts
fail for `N = 1`. -/
theorem claim_C2_counterexample :
    oneSlide.currentSlide = oneSlide.slideCount - 1
    ∧ (oneSlide.removeTestimonial oneSlide.currentSlide).currentSlide = -1
    ∧ ¬(0 ≤ (oneSlide.removeTestimonial oneSlide.currentSlide).currentSlide
        ∧ (oneSlide.removeTestimonial oneSlide.currentSlide).currentSlide
          < (oneSlide.removeTestimonial oneSlide.currentSlide).slideCount) := by
  decide

open TestimonialsSlider in
/-- Claim C2 (amended): for a collection with `slideCount = N ≥ 2` (so the
removal leaves at least one slide), removing the last slide while it is
current clamps `currentSlide` to `N - 2 ≥ 0`, and after `removeTestimonial`
with any argument `0 ≤ currentSlide < slideCount` still holds. -/
theorem claim_C2_remove_clamps (s : TestimonialsSlider)
    (hcount : s.slideCount = (s.slides.length : Int)) (hN : 2 ≤ s.slideCount)
    (h0 : 0 ≤ s.currentSlide) (hlt : s.currentSlide < s.slideCount) :
    (s.currentSlide = s.slideCount - 1 →
      (s.removeTestimonial s.currentSlide).currentSlide = s.slideCount - 2)
    ∧ ∀ index : Int,
        0 ≤ (s.removeTestimonial index).currentSlide
        ∧ (s.removeTestimonial index).currentSlide
          < (s.removeTestimonial index).slideCount := by
  have hmain : ∀ index : Int, ¬(index < 0 ∨ s.slideCount ≤ index) →
      (s.removeTestimonial index).currentSlide
        = (if s.slideCount - 1 ≤ s.currentSlide then s.slideCount - 2
           else s.currentSlide)
      ∧ (s.removeTestimonial index).slideCount = s.slideCount - 1 := by
    intro index hr
    push_neg at hr
    have htn : index.toNat < s.slides.length := by omega
    have hlen : (s.slides.eraseIdx index.toNat).length = s.slides.length - 1 :=
      List.length_eraseIdx_of_lt htn
    rw [removeTestimonial, if_neg (by omega)]
    simp only [updateSlider_currentSlide, updateSlider_slideCount,
      setupAccessibility_currentSlide, setupAccessibility_slideCount, hlen]
    have hcast : ((s.slides.length - 1 : Nat) : Int) = s.slideCount - 1 := by omega
    rw [hcast]
    split_ifs with hc <;> simp
    omega
  constructor
  · intro hlast
    obtain ⟨h₁, -⟩ := hmain s.currentSlide (by omega)
    rw [h₁, if_pos (by omega)]
  · intro index
    by_cases hr : index < 0 ∨ s.slideCount ≤ index
    · rw [removeTestimonial, if_pos hr]
      exact ⟨h0, hlt⟩
    · obtain ⟨h₁, h₂⟩ := hmain index hr
      rw [h₁, h₂]
      split_ifs <;> omega

open TestimonialsSlider in
/-- Claim C2 witness: a two-slide slider on its last slide (index 1) ends on
index 0 after removing it, and the range invariant holds after removing
index 0 as well. -/
theorem claim_C2_witness :
    let s : TestimonialsSlider :=
      { currentSlide := 1, slideCount := 2, isAnimating := false,
        slides := [{ active := false, ariaHidden := true },
                   { active := true, ariaHidden := false }],
        autoPlayInterval := none, autoPlayDelay := 5000,
        activeTimers := [], nextTimerId := 0 }
    (s.currentSlide = s.slideCount - 1 →
      (s.removeTestimonial s.currentSlide).currentSlide = s.slideCount - 2)
    ∧ ∀ index : Int,
        0 ≤ (s.removeTestimonial index).currentSlide
        ∧ (s.removeTestimonial index).currentSlide
          < (s.removeTestimonial index).slideCount :=
  claim_C2_remove_clamps _ (by decide) (by decide) (by decide) (by decide)

namespace PracticeSlider

lemma updateSlider_currentSlideP (s : PracticeSlider) :
    (updateSlider s).currentSlide = s.currentSlide := by
  unfold updateSlider; split <;> rfl

end PracticeSlider

/-- Claim C3 counterexample: `PracticeSlider.goToSlide` is cited as a source
of the claim, but with a transition in progress (`isAnimating = true`) the
in-range call `goToSlide(3)` still changes the state, moving
`currentSlide` from 2 to 3 instead of being a no-op. -/
theorem claim_C3_counterexample :
    tourMid.isAnimating = true
    ∧ (tourMid.goToSlide 3).currentSlide = 3
    ∧ tourMid.goToSlide 3 ≠ tourMid := by
  decide

/-- Claim C3 (amended): `TestimonialsSlider.goToSlide(i)` is a silent no-op
exactly as claimed (out-of-range `i`, `i` equal to the current index, or a
transition in progress) and otherwise jumps to `i`; but
`PracticeSlider.goToSlide(n)` only rejects numbers outside its 1-based
range `[1, totalSlides]` and performs every in-range jump, even mid
transition or when `n` is already current. -/
theorem claim_C3_goto_guards :
    (∀ (s : TestimonialsSlider) (i : Int),
      ((s.isAnimating = true ∨ i < 0 ∨ s.slideCount ≤ i ∨ i = s.currentSlide) →
        s.goToSlide i = s)
      ∧ (s.isAnimating = false → 0 ≤ i → i < s.slideCount → i ≠ s.currentSlide →
        (s.goToSlide i).currentSlide = i))
    ∧ (∀ (p : PracticeSlider) (n : Int),
      ((n < 1 ∨ p.totalSlides < n) → p.goToSlide n = p)
      ∧ (1 ≤ n → n ≤ p.totalSlides → (p.goToSlide n).currentSlide = n)) := by
  constructor
  · intro s i
    constructor
    · intro h
      rw [TestimonialsSlider.goToSlide, if_pos h]
    · intro hA h0 hlt hne
      rw [TestimonialsSlider.goToSlide, if_neg (by simp [hA]; omega)]
      exact TestimonialsSlider.updateSlider_currentSlide _
  · intro p n
    constructor
    · intro h
      rw [PracticeSlider.goToSlide, if_neg (by omega)]
    · intro h1 h2
      rw [PracticeSlider.goToSlide, if_pos ⟨h1, h2⟩]
      exact PracticeSlider.updateSlider_currentSlideP _

/-- Claim C3 witness: the testimonials slider accepts an in-range jump to a
different index, and the idle practice slider rejects the out-of-range
number 6. -/
theorem claim_C3_witness :
    (ts3.isAnimating = false ∧ (0 : Int) ≤ 0 ∧ (0 : Int) < ts3.slideCount
      ∧ (0 : Int) ≠ ts3.currentSlide ∧ (ts3.goToSlide 0).currentSlide = 0)
    ∧ (((6 : Int) < 1 ∨ tourIdle.totalSlides < 6) ∧ tourIdle.goToSlide 6 = tourIdle) :=
  ⟨⟨by decide, by decide, by decide, by decide,
      (claim_C3_goto_guards.1 ts3 0).2 (by decide) (by decide) (by decide) (by decide)⟩,
    ⟨by decide,
      (claim_C3_goto_guards.2 tourIdle 6).1 (by decide)⟩⟩

open TestimonialsSlider in
/-- Claim C9 counterexample: adding a testimonial to an empty collection
(`N = 0`) makes the new slide the current slide (`currentSlide = 0` is its
index) with `aria-hidden='false'` after the final `setupAccessibility`
pass, so the new slide is not `initially non-active` as claimed. -/
theorem claim_C9_counterexample :
    getSlideCount emptySlider.addTestimonial = 1
    ∧ emptySlider.addTestimonial.slides = [{ active := false, ariaHidden := false }]
    ∧ emptySlider.addTestimonial.currentSlide = 0 := by
  decide

open TestimonialsSlider in
/-- Claim C9 (amended): for a collection with `slideCount = N ≥ 1` and a
valid current index, `addTestimonial` makes `getSlideCount()` return
`N + 1`, the appended slide (the last one, at index `N`) has no `active`
class and `aria-hidden='true'`, its index differs from `currentSlide`, and
`currentSlide` is unchanged. -/
theorem claim_C9_add_appends_inactive (s : TestimonialsSlider)
    (hcount : s.slideCount = (s.slides.length : Int)) (hN : 1 ≤ s.slideCount)
    (hlt : s.currentSlide < s.slideCount) :
    getSlideCount s.addTestimonial = s.slideCount + 1
    ∧ s.addTestimonial.slides.getLast? = some { active := false, ariaHidden := true }
    ∧ (s.addTestimonial.slides.length : Int) - 1 ≠ s.currentSlide
    ∧ s.addTestimonial.currentSlide = s.currentSlide := by
  have hlen1 : 1 ≤ s.slides.length := by omega
  refine ⟨?_, ?_, ?_, rfl⟩
  · simp only [addTestimonial, getSlideCount, setupAccessibility_slideCount,
      List.length_append, List.length_cons, List.length_nil]
    omega
  · simp only [addTestimonial, setupAccessibility]
    rw [List.mapIdx_concat, List.getLast?_concat]
    have : (s.slides.length != 0) = true := by
      simp only [bne_iff_ne, ne_eq]
      omega
    rw [this]
  · simp only [addTestimonial, setupAccessibility, List.length_mapIdx,
      List.length_append, List.length_cons, List.length_nil]
    omega

/-- Claim C9 witness: adding to the three-slide slider yields count 4, an
appended hidden inactive slide at index 3, and an unchanged current index. -/
theorem claim_C9_witness :
    ts3.slideCount = (ts3.slides.length : Int) ∧ 1 ≤ ts3.slideCount
    ∧ ts3.currentSlide < ts3.slideCount
    ∧ (TestimonialsSlider.getSlideCount ts3.addTestimonial = ts3.slideCount + 1
      ∧ ts3.addTestimonial.slides.getLast?
        = some { active := false, ariaHidden := true }
      ∧ (ts3.addTestimonial.slides.length : Int) - 1 ≠ ts3.currentSlide
      ∧ ts3.addTestimonial.currentSlide = ts3.currentSlide) :=
  ⟨by decide, by decide, by decide,
    claim_C9_add_appends_inactive ts3 (by decide) (by decide) (by decide)⟩

namespace TestimonialsSlider

lemma timerInv_startAutoPlay (s : TestimonialsSlider) (h : TimerInv s) :
    TimerInv (startAutoPlay s) := by
  unfold startAutoPlay
  cases hopt : s.autoPlayInterval with
  | some hdl =>
      rw [if_pos (by simp [hopt])]
      exact h
  | none =>
      have h' : s.activeTimers = [] := by simpa [TimerInv, hopt] using h
      rw [if_neg (by simp [hopt])]
      exact ⟨s.autoPlayDelay, by simp [h']⟩

lemma timerInv_pauseAutoPlay (s : TestimonialsSlider) (h : TimerInv s) :
    TimerInv (pauseAutoPlay s) := by
  unfold pauseAutoPlay
  cases hopt : s.autoPlayInterval with
  | none =>
      simp only [hopt]
      exact h
  | some hdl =>
      obtain ⟨d, hd⟩ : ∃ d, s.activeTimers = [(hdl, d)] := by
        simpa [TimerInv, hopt] using h
      simp only [hopt]
      show (s.activeTimers.filter fun t => t.1 != hdl) = []
      simp [hd]

lemma timerCount_startAutoPlay (s : TestimonialsSlider) (h : TimerInv s) :
    timerCount (startAutoPlay s) = 1 := by
  unfold startAutoPlay timerCount
  cases hopt : s.autoPlayInterval with
  | some hdl =>
      obtain ⟨d, hd⟩ : ∃ d, s.activeTimers = [(hdl, d)] := by
        simpa [TimerInv, hopt] using h
      rw [if_pos (by simp [hopt])]
      simp [hd]
  | none =>
      have h' : s.activeTimers = [] := by simpa [TimerInv, hopt] using h
      rw [if_neg (by simp [hopt])]
      simp [h']

lemma pauseAutoPlay_none (s : TestimonialsSlider) (h : s.autoPlayInterval = none) :
    pauseAutoPlay s = s := by
  unfold pauseAutoPlay
  rw [h]

lemma timerCount_le_one_of_inv (s : TestimonialsSlider) (h : TimerInv s) :
    timerCount s ≤ 1 := by
  unfold timerCount
  cases hopt : s.autoPlayInterval with
  | none =>
      have h' : s.activeTimers = [] := by simpa [TimerInv, hopt] using h
      simp [h']
  | some hdl =>
      obtain ⟨d, hd⟩ : ∃ d, s.activeTimers = [(hdl, d)] := by
        simpa [TimerInv, hopt] using h
      simp [hd]

end TestimonialsSlider

namespace PracticeSlider

lemma timerInv_startAutoPlayP (s : PracticeSlider) (h : TimerInv s) :
    TimerInv (startAutoPlay s) := by
  unfold startAutoPlay
  cases hopt : s.autoPlayInterval with
  | none =>
      have h' : s.activeTimers = [] := by simpa [TimerInv, hopt] using h
      simp only [hopt]
      exact ⟨s.autoPlayDelay, by simp [h']⟩
  | some hdl =>
      obtain ⟨d, hd⟩ : ∃ d, s.activeTimers = [(hdl, d)] := by
        simpa [TimerInv, hopt] using h
      simp only [hopt]
      exact ⟨s.autoPlayDelay, by simp [hd]⟩

lemma timerInv_pauseAutoPlayP (s : PracticeSlider) (h : TimerInv s) :
    TimerInv (pauseAutoPlay s) := by
  unfold pauseAutoPlay
  cases hopt : s.autoPlayInterval with
  | none =>
      simp only [hopt]
      exact h
  | some hdl =>
      obtain ⟨d, hd⟩ : ∃ d, s.activeTimers = [(hdl, d)] := by
        simpa [TimerInv, hopt] using h
      simp only [hopt]
      show (s.activeTimers.filter fun t => t.1 != hdl) = []
      simp [hd]

lemma timerCount_startAutoPlayP (s : PracticeSlider) (h : TimerInv s) :
    timerCount (startAutoPlay s) = 1 := by
  unfold startAutoPlay timerCount
  cases hopt : s.autoPlayInterval with
  | none =>
      have h' : s.activeTimers = [] := by simpa [TimerInv, hopt] using h
      simp [hopt, h']
  | some hdl =>
      obtain ⟨d, hd⟩ : ∃ d, s.activeTimers = [(hdl, d)] := by
        simpa [TimerInv, hopt] using h
      simp [hopt, hd]

lemma pauseAutoPlay_noneP (s : PracticeSlider) (h : s.autoPlayInterval = none) :
    pauseAutoPlay s = s := by
  unfold pauseAutoPlay
  rw [h]

lemma timerCount_le_one_of_invP (s : PracticeSlider) (h : TimerInv s) :
    timerCount s ≤ 1 := by
  unfold timerCount
  cases hopt : s.autoPlayInterval with
  | none =>
      have h' : s.activeTimers = [] := by simpa [TimerInv, hopt] using h
      simp [h']
  | some hdl =>
      obtain ⟨d, hd⟩ : ∃ d, s.activeTimers = [(hdl, d)] := by
        simpa [TimerInv, hopt] using h
      simp [hd]

end PracticeSlider

lemma timerInv_runAutoT (ops : List AutoOp) :
    ∀ s : TestimonialsSlider, TestimonialsSlider.TimerInv s →
      TestimonialsSlider.TimerInv (runAutoT s ops) := by
  induction ops with
  | nil => exact fun s h => h
  | cons op rest ih =>
      intro s h
      cases op with
      | play => exact ih _ (TestimonialsSlider.timerInv_startAutoPlay s h)
      | pause => exact ih _ (TestimonialsSlider.timerInv_pauseAutoPlay s h)

lemma timerInv_runAutoP (ops : List AutoOp) :
    ∀ s : PracticeSlider, PracticeSlider.TimerInv s →
      PracticeSlider.TimerInv (runAutoP s ops) := by
  induction ops with
  | nil => exact fun s h => h
  | cons op rest ih =>
      intro s h
      cases op with
      | play => exact ih _ (PracticeSlider.timerInv_startAutoPlayP s h)
      | pause => exact ih _ (PracticeSlider.timerInv_pauseAutoPlayP s h)

/-- Claim C5: starting from any state satisfying the timer invariant (which
covers every state reachable from initialisation), any sequence of
`play()`/`pause()` calls leaves at most one live timer; `play()` twice
yields exactly one timer, not two; `pause()` when already paused changes
nothing; and `pause()` followed by `play()` yields exactly one live
timer — for both slider classes. -/
theorem claim_C5_play_pause_idempotent :
    (∀ (s : TestimonialsSlider) (ops : List AutoOp), TestimonialsSlider.TimerInv s →
      TestimonialsSlider.timerCount (runAutoT s ops) ≤ 1)
    ∧ (∀ s : TestimonialsSlider, TestimonialsSlider.TimerInv s →
      TestimonialsSlider.timerCount s.play.play = 1)
    ∧ (∀ s : TestimonialsSlider, s.autoPlayInterval = none → s.pause = s)
    ∧ (∀ s : TestimonialsSlider, TestimonialsSlider.TimerInv s →
      TestimonialsSlider.timerCount s.pause.play = 1)
    ∧ (∀ (p : PracticeSlider) (ops : List AutoOp), PracticeSlider.TimerInv p →
      PracticeSlider.timerCount (runAutoP p ops) ≤ 1)
    ∧ (∀ p : PracticeSlider, PracticeSlider.TimerInv p →
      PracticeSlider.timerCount p.play.play = 1)
    ∧ (∀ p : PracticeSlider, p.autoPlayInterval = none → p.pause = p)
    ∧ (∀ p : PracticeSlider, PracticeSlider.TimerInv p →
      PracticeSlider.timerCount p.pause.play = 1) := by
  refine ⟨fun s ops h => ?_, fun s h => ?_, fun s h => ?_, fun s h => ?_,
    fun p ops h => ?_, fun p h => ?_, fun p h => ?_, fun p h => ?_⟩
  · exact TestimonialsSlider.timerCount_le_one_of_inv _ (timerInv_runAutoT ops s h)
  · exact TestimonialsSlider.timerCount_startAutoPlay _
      (TestimonialsSlider.timerInv_startAutoPlay s h)
  · exact TestimonialsSlider.pauseAutoPlay_none s h
  · exact TestimonialsSlider.timerCount_startAutoPlay _
      (TestimonialsSlider.timerInv_pauseAutoPlay s h)
  · exact PracticeSlider.timerCount_le_one_of_invP _ (timerInv_runAutoP ops p h)
  · exact PracticeSlider.timerCount_startAutoPlayP _
      (PracticeSlider.timerInv_startAutoPlayP p h)
  · exact PracticeSlider.pauseAutoPlay_noneP p h
  · exact PracticeSlider.timerCount_startAutoPlayP _
      (PracticeSlider.timerInv_pauseAutoPlayP p h)

/-- Claim C5 witness: concrete play/pause sequences on both sliders leave
exactly one (or at most one) live timer. -/
theorem claim_C5_witness :
    TestimonialsSlider.TimerInv ts3
    ∧ TestimonialsSlider.timerCount
        (runAutoT ts3 [AutoOp.play, AutoOp.play, AutoOp.pause, AutoOp.play]) ≤ 1
    ∧ TestimonialsSlider.timerCount ts3.play.play = 1
    ∧ ts3.pause = ts3
    ∧ TestimonialsSlider.timerCount ts3.pause.play = 1
    ∧ PracticeSlider.TimerInv tourActive
    ∧ PracticeSlider.timerCount tourActive.pause.play = 1 := by
  have hts : TestimonialsSlider.TimerInv ts3 := by
    show ts3.activeTimers = []
    rfl
  have htour : PracticeSlider.TimerInv tourActive := ⟨5000, rfl⟩
  exact ⟨hts,
    claim_C5_play_pause_idempotent.1 ts3 [AutoOp.play, AutoOp.play, AutoOp.pause, AutoOp.play] hts,
    claim_C5_play_pause_idempotent.2.1 ts3 hts,
    claim_C5_play_pause_idempotent.2.2.1 ts3 rfl,
    claim_C5_play_pause_idempotent.2.2.2.1 ts3 hts,
    htour,
    claim_C5_play_pause_idempotent.2.2.2.2.2.2.2 tourActive htour⟩

namespace TestimonialsSlider

lemma startAutoPlay_delay (s : TestimonialsSlider) :
    (startAutoPlay s).autoPlayDelay = s.autoPlayDelay := by
  unfold startAutoPlay; split <;> rfl

lemma pauseAutoPlay_delay (s : TestimonialsSlider) :
    (pauseAutoPlay s).autoPlayDelay = s.autoPlayDelay := by
  unfold pauseAutoPlay
  cases hopt : s.autoPlayInterval <;> rfl

end TestimonialsSlider

namespace PracticeSlider

lemma startAutoPlay_delayP (s : PracticeSlider) :
    (startAutoPlay s).autoPlayDelay = s.autoPlayDelay := by
  unfold startAutoPlay
  cases hopt : s.autoPlayInterval <;> rfl

end PracticeSlider

/-- Claim C6: `setAutoPlayDelay(ms)` always stores the new delay; when
autoplay is active it restarts the timer so that afterwards exactly one
live timer exists, a fresh one ticking at the new delay; when autoplay is
inactive no timer is started and the handle stays null — for both slider
classes. -/
theorem claim_C6_set_autoplay_delay :
    (∀ (s : TestimonialsSlider) (d : Int), (s.setAutoPlayDelay d).autoPlayDelay = d)
    ∧ (∀ (s : TestimonialsSlider) (d : Int), TestimonialsSlider.TimerInv s →
        s.autoPlayInterval.isSome = true →
        (s.setAutoPlayDelay d).autoPlayInterval = some s.nextTimerId
        ∧ (s.setAutoPlayDelay d).activeTimers = [(s.nextTimerId, d)])
    ∧ (∀ (s : TestimonialsSlider) (d : Int), s.autoPlayInterval = none →
        (s.setAutoPlayDelay d).autoPlayInterval = none
        ∧ (s.setAutoPlayDelay d).activeTimers = s.activeTimers)
    ∧ (∀ (p : PracticeSlider) (d : Int), (p.setAutoPlayDelay d).autoPlayDelay = d)
    ∧ (∀ (p : PracticeSlider) (d : Int), PracticeSlider.TimerInv p →
        p.autoPlayInterval.isSome = true →
        (p.setAutoPlayDelay d).autoPlayInterval = some p.nextTimerId
        ∧ (p.setAutoPlayDelay d).activeTimers = [(p.nextTimerId, d)])
    ∧ (∀ (p : PracticeSlider) (d : Int), p.autoPlayInterval = none →
        (p.setAutoPlayDelay d).autoPlayInterval = none
        ∧ (p.setAutoPlayDelay d).activeTimers = p.activeTimers) := by
  refine ⟨fun s d => ?_, fun s d hinv hs => ?_, fun s d h => ?_,
    fun p d => ?_, fun p d hinv hs => ?_, fun p d h => ?_⟩
  · simp only [TestimonialsSlider.setAutoPlayDelay]
    split_ifs with hs
    · rw [TestimonialsSlider.startAutoPlay_delay, TestimonialsSlider.pauseAutoPlay_delay]
    · rfl
  · cases hopt : s.autoPlayInterval with
    | none => rw [hopt] at hs; simp at hs
    | some hdl =>
        obtain ⟨d0, hd⟩ : ∃ d0, s.activeTimers = [(hdl, d0)] := by
          simpa [TestimonialsSlider.TimerInv, hopt] using hinv
        simp [TestimonialsSlider.setAutoPlayDelay, TestimonialsSlider.pauseAutoPlay,
          TestimonialsSlider.startAutoPlay, hopt, hd]
  · simp only [TestimonialsSlider.setAutoPlayDelay]
    rw [if_neg (by simp [h])]
    exact ⟨h, rfl⟩
  · simp only [PracticeSlider.setAutoPlayDelay]
    split_ifs with hs
    · rw [PracticeSlider.startAutoPlay_delayP]
    · rfl
  · cases hopt : p.autoPlayInterval with
    | none => rw [hopt] at hs; simp at hs
    | some hdl =>
        obtain ⟨d0, hd⟩ : ∃ d0, p.activeTimers = [(hdl, d0)] := by
          simpa [PracticeSlider.TimerInv, hopt] using hinv
        simp [PracticeSlider.setAutoPlayDelay, PracticeSlider.startAutoPlay, hopt, hd]
  · simp only [PracticeSlider.setAutoPlayDelay]
    rw [if_neg (by simp [h])]
    exact ⟨h, rfl⟩

/-- Claim C6 witness: concrete delay updates on an active and on an idle
slider of each class. -/
theorem claim_C6_witness :
    TestimonialsSlider.TimerInv tsActive
    ∧ tsActive.autoPlayInterval.isSome = true
    ∧ (tsActive.setAutoPlayDelay 1234).autoPlayDelay = 1234
    ∧ ((tsActive.setAutoPlayDelay 1234).autoPlayInterval = some tsActive.nextTimerId
      ∧ (tsActive.setAutoPlayDelay 1234).activeTimers = [(tsActive.nextTimerId, 1234)])
    ∧ ts3.autoPlayInterval = none
    ∧ ((ts3.setAutoPlayDelay 900).autoPlayInterval = none
      ∧ (ts3.setAutoPlayDelay 900).activeTimers = ts3.activeTimers)
    ∧ PracticeSlider.TimerInv tourActive
    ∧ ((tourActive.setAutoPlayDelay 777).autoPlayInterval = some tourActive.nextTimerId
      ∧ (tourActive.setAutoPlayDelay 777).activeTimers = [(tourActive.nextTimerId, 777)]) := by
  have h1 : TestimonialsSlider.TimerInv tsActive := ⟨5000, rfl⟩
  have h2 : PracticeSlider.TimerInv tourActive := ⟨5000, rfl⟩
  exact ⟨h1, rfl,
    claim_C6_set_autoplay_delay.1 tsActive 1234,
    claim_C6_set_autoplay_delay.2.1 tsActive 1234 h1 rfl,
    rfl,
    claim_C6_set_autoplay_delay.2.2.1 ts3 900 rfl,
    h2,
    claim_C6_set_autoplay_delay.2.2.2.2.1 tourActive 777 h2 rfl⟩

lemma rowSpec (a b c' : Int) (ha : (0 : Int) < a) (hb : (0 : Int) < b)
    (hc : (0 : Int) < c') (c : String) :
    (mkRow a b c' c = none ↔ ¬ c ∈ complexityKeys)
    ∧ ∀ p, mkRow a b c' c = some p → 0 < p := by
  unfold mkRow complexityKeys
  constructor
  · split_ifs <;> simp_all
  · intro p hp
    split_ifs at hp <;> simp_all

/-- The shape shared by the four second-level tables: defined rows exactly
on `durationKeys`, with positive prices on `complexityKeys`. -/
def TableSpec (f : String → Option (String → Option Int)) : Prop :=
  ∀ d : String, (f d = none ↔ ¬ d ∈ durationKeys)
    ∧ ∀ row, f d = some row → ∀ c : String,
        (row c = none ↔ ¬ c ∈ complexityKeys) ∧ ∀ p, row c = some p → 0 < p

lemma tableSpec_invisalign : TableSpec invisalignPrices := by
  intro d
  unfold invisalignPrices durationKeys
  constructor
  · split_ifs <;> simp_all
  · intro row hrow c
    split_ifs at hrow <;>
      first
      | exact Option.noConfusion hrow
      | (obtain rfl : row = _ := (Option.some.inj hrow).symm
         exact rowSpec _ _ _ (by norm_num) (by norm_num) (by norm_num) c)

lemma tableSpec_festeSpange : TableSpec festeSpangePrices := by
  intro d
  unfold festeSpangePrices durationKeys
  constructor
  · split_ifs <;> simp_all
  · intro row hrow c
    split_ifs at hrow <;>
      first
      | exact Option.noConfusion hrow
      | (obtain rfl : row = _ := (Option.some.inj hrow).symm
         exact rowSpec _ _ _ (by norm_num) (by norm_num) (by norm_num) c)

lemma tableSpec_lingual : TableSpec lingualPrices := by
  intro d
  unfold lingualPrices durationKeys
  constructor
  · split_ifs <;> simp_all
  · intro row hrow c
    split_ifs at hrow <;>
      first
      | exact Option.noConfusion hrow
      | (obtain rfl : row = _ := (Option.some.inj hrow).symm
         exact rowSpec _ _ _ (by norm_num) (by norm_num) (by norm_num) c)

lemma tableSpec_fruehbehandlung : TableSpec fruehbehandlungPrices := by
  intro d
  unfold fruehbehandlungPrices durationKeys
  constructor
  · split_ifs <;> simp_all
  · intro row hrow c
    split_ifs at hrow <;>
      first
      | exact Option.noConfusion hrow
      | (obtain rfl : row = _ := (Option.some.inj hrow).symm
         exact rowSpec _ _ _ (by norm_num) (by norm_num) (by norm_num) c)

lemma pricingDataSpec (t : String) :
    (pricingData t = none ↔ ¬ t ∈ treatmentKeys)
    ∧ ∀ table, pricingData t = some table → TableSpec table := by
  unfold pricingData treatmentKeys
  constructor
  · split_ifs <;> simp_all
  · intro table htab
    split_ifs at htab <;>
      first
      | exact Option.noConfusion htab
      | (obtain rfl : table = _ := (Option.some.inj htab).symm
         first
         | exact tableSpec_invisalign
         | exact tableSpec_festeSpange
         | exact tableSpec_lingual
         | exact tableSpec_fruehbehandlung)

lemma pricingLookup_none_iff (t d c : String) :
    pricingLookup t d c = none
      ↔ ¬(t ∈ treatmentKeys ∧ d ∈ durationKeys ∧ c ∈ complexityKeys) := by
  unfold pricingLookup
  cases ht : pricingData t with
  | none =>
      have hmem := (pricingDataSpec t).1.mp ht
      simp [hmem]
  | some table =>
      have htmem : t ∈ treatmentKeys := by
        by_contra hmem
        rw [(pricingDataSpec t).1.mpr hmem] at ht
        exact Option.noConfusion ht
      have hspec := (pricingDataSpec t).2 table ht
      rw [Option.some_bind]
      cases hd : table d with
      | none =>
          have hmem := (hspec d).1.mp hd
          simp [hmem, htmem]
      | some row =>
          have hdmem : d ∈ durationKeys := by
            by_contra hmem
            rw [(hspec d).1.mpr hmem] at hd
            exact Option.noConfusion hd
          rw [Option.some_bind]
          cases hc : row c with
          | none =>
              have hmem := ((hspec d).2 row hd c).1.mp hc
              simp [hmem, htmem, hdmem]
          | some p =>
              have hcmem : c ∈ complexityKeys := by
                by_contra hmem
                rw [((hspec d).2 row hd c).1.mpr hmem] at hc
                exact Option.noConfusion hc
              simp [htmem, hdmem, hcmem]

lemma pricingLookup_pos (t d c : String) (p : Int)
    (h : pricingLookup t d c = some p) : 0 < p := by
  unfold pricingLookup at h
  cases ht : pricingData t with
  | none => rw [ht] at h; exact Option.noConfusion h
  | some table =>
      rw [ht, Option.some_bind] at h
      cases hd : table d with
      | none => rw [hd] at h; exact Option.noConfusion h
      | some row =>
          rw [hd, Option.some_bind] at h
          exact (((pricingDataSpec t).2 table ht d).2 row hd c).2 p h

/-- Claim C10: `calculateCustomCost(t, d, c)` returns `null` exactly when
`(t, d, c)` is not a key path of the static pricing table (every stored
price is positive, so the falsy check coincides with the lookup missing);
and whenever a result is returned, `subtotal = basePrice + 150 + 200 + 300`
and `insuranceCoverage + patientShare = subtotal`. -/
theorem claim_C10_custom_cost_domain :
    (∀ t d c : String,
      calculateCustomCost t d c = none
        ↔ ¬(t ∈ treatmentKeys ∧ d ∈ durationKeys ∧ c ∈ complexityKeys))
    ∧ (∀ (t d c : String) (r : CostResult), calculateCustomCost t d c = some r →
        r.subtotal = r.basePrice + 150 + 200 + 300
        ∧ r.insuranceCoverage + r.patientShare = r.subtotal) := by
  constructor
  · intro t d c
    unfold calculateCustomCost
    cases hp : pricingLookup t d c with
    | none =>
        have hmem := (pricingLookup_none_iff t d c).mp hp
        simp [hmem]
    | some p =>
        have hpos := pricingLookup_pos t d c p hp
        have hmem : t ∈ treatmentKeys ∧ d ∈ durationKeys ∧ c ∈ complexityKeys := by
          by_contra hmem
          rw [(pricingLookup_none_iff t d c).mpr hmem] at hp
          exact Option.noConfusion hp
        have hne : ¬ p = 0 := by omega
        simp [hmem, hne]
  · intro t d c r h
    unfold calculateCustomCost at h
    cases hp : pricingLookup t d c with
    | none => rw [hp] at h; exact Option.noConfusion h
    | some p =>
        rw [hp] at h
        dsimp only at h
        split_ifs at h with hz
        obtain rfl : r = calculateDetailedCost p t d c := (Option.some.inj h).symm
        unfold calculateDetailedCost
        exact ⟨rfl, by dsimp only; omega⟩

/-- Claim C10 witness: a successful lookup whose breakdown satisfies both
consistency equations. -/
theorem claim_C10_witness :
    calculateCustomCost "fruehbehandlung" "short" "simple"
      = some (calculateDetailedCost 1800 "fruehbehandlung" "short" "simple")
    ∧ ((calculateDetailedCost 1800 "fruehbehandlung" "short" "simple").subtotal
        = (calculateDetailedCost 1800 "fruehbehandlung" "short" "simple").basePrice
          + 150 + 200 + 300
      ∧ (calculateDetailedCost 1800 "fruehbehandlung" "short" "simple").insuranceCoverage
          + (calculateDetailedCost 1800 "fruehbehandlung" "short" "simple").patientShare
        = (calculateDetailedCost 1800 "fruehbehandlung" "short" "simple").subtotal) := by
  have h : calculateCustomCost "fruehbehandlung" "short" "simple"
      = some (calculateDetailedCost 1800 "fruehbehandlung" "short" "simple") := by
    simp +decide [calculateCustomCost, pricingLookup, pricingData,
      fruehbehandlungPrices, mkRow]
  exact ⟨h, claim_C10_custom_cost_domain.2 "fruehbehandlung" "short" "simple" _ h⟩

end Zahndemo
